import Mathlib

/-!
# Verification of the upsight-backend specification

Shallow embedding of the upsight-backend repository (Django/DRF, three
verticals `board`, `main`, `management`) and proofs about the claims of its
natural-language specification.

Conventions of the embedding:
* Calendar dates and timestamps are represented by their chronological
  ordinal, a `Nat`; Python compares `date`/`datetime` values chronologically.
* `Decimal` amounts are exact; the concrete amounts of every claim are
  whole numbers, so they are represented as `Int` (a `Decimal(10,2)` column
  is exact in hundredths; whole units suffice for every statement here).
* Auth groups are referred to by name (`String`), as the code does
  (`user.groups.filter(name=...)`).
* Nullable text columns and optional form values are `Option String`;
  Python truthiness of a string is "non-empty".
-/

namespace Upsight

/-- Python `a or b` on strings: `a` if truthy (non-empty), else `b`. -/
def pyOr (a b : String) : String :=
  if a ≠ "" then a else b

/-- Embedding of `request.user.groups.filter(name=g).exists()`: membership of a group name
in the principal's group set. -/
def hasGroup (groups : List String) (g : String) : Bool :=
  groups.contains g

/-! ## Python's stable sort, descending by a `Nat` key

`list.sort(key=..., reverse=True)` in CPython is stable: records with equal
keys keep their original relative order (the `reverse` flag does not disturb
ties).  Any stable sort for the same total preorder produces the same list,
so we model it by insertion sort for the relation `key b ≤ key a`, which
places an element before all equal-key elements to its right. -/

/-- Stable descending sort by a `Nat`-valued key (the model of
`payments_data.sort(key=lambda x: x['date'], reverse=True)` and of
`order_by('-date')` read as a deterministic stable ordering). -/
def sortByKeyDesc (k : α → Nat) (l : List α) : List α :=
  List.insertionSort (fun a b => k b ≤ k a) l

theorem sortByKeyDesc_perm (k : α → Nat) (l : List α) :
    List.Perm (sortByKeyDesc k l) l :=
  List.perm_insertionSort _ l

theorem sortByKeyDesc_sorted (k : α → Nat) (l : List α) :
    (sortByKeyDesc k l).Sorted (fun a b => k b ≤ k a) := by
  haveI : IsTotal α (fun a b => k b ≤ k a) := ⟨fun a b => le_total (k b) (k a)⟩
  haveI : IsTrans α (fun a b => k b ≤ k a) :=
    ⟨fun _ _ _ hab hbc => le_trans hbc hab⟩
  exact List.sorted_insertionSort _ l

theorem filter_key_orderedInsert (k : α → Nat) (d : Nat) (a : α) (l : List α) :
    (List.orderedInsert (fun a b => k b ≤ k a) a l).filter (fun x => k x == d)
      = (a :: l).filter (fun x => k x == d) := by
  induction l with
  | nil => rfl
  | cons b l ih =>
    by_cases h : k b ≤ k a
    · simp [List.orderedInsert, h]
    · have hab : k a < k b := lt_of_not_le h
      simp only [List.orderedInsert, if_neg h]
      by_cases hd : k a = d
      · have hbd : (k b == d) = false := by
          simp only [beq_eq_false_iff_ne]
          omega
        simp only [List.filter_cons, hbd, ih, hd]
        simp
      · have had : (k a == d) = false := by
          simp only [beq_eq_false_iff_ne]
          exact hd
        simp only [List.filter_cons, ih, had]
        simp [List.filter_cons]

/-- Stability of the descending sort, phrased without positions: for every
key value `d`, the sorted list restricted to key `d` is exactly the input
restricted to key `d`, in the same order. -/
theorem sortByKeyDesc_filter_stable (k : α → Nat) (d : Nat) (l : List α) :
    (sortByKeyDesc k l).filter (fun x => k x == d)
      = l.filter (fun x => k x == d) := by
  induction l with
  | nil => rfl
  | cons a l ih =>
    show (List.orderedInsert _ a (List.insertionSort _ l)).filter _ = _
    rw [filter_key_orderedInsert]
    simp only [List.filter_cons]
    rw [show (List.insertionSort (fun a b => k b ≤ k a) l).filter
          (fun x => k x == d) = l.filter (fun x => k x == d) from ih]

/-! ## Data model for the scoped read views (board vertical and students list)

Rows carry the columns the claims touch; opaque file/image columns are not
represented (they never influence scoping, ordering or bilingual reads). -/

/-- An authenticated principal: `request.user`, identified by primary key,
with the names of its auth groups. -/
structure Principal where
  id : Nat
  groups : List String
deriving DecidableEq

/-- Embedding of `management.models.UniversityManager`, restricted to its two link
columns: the 1:1 `user` link (unique by `OneToOneField`) and the owning
`university`. -/
structure ManagerRow where
  user : Nat
  university : Nat
deriving DecidableEq

/-- A `board` content row (`News`, `Notice`, `Information` share this shape:
bilingual title/content, owning `university` foreign key, `date`). -/
structure BoardRow where
  id : Nat
  title_uz : String
  title_ko : String
  content_uz : String
  content_ko : String
  university : Nat
  date : Nat
deriving DecidableEq

/-- Embedding of `board.models.Translation`: same bilingual columns but no `date`. -/
structure TranslationRow where
  id : Nat
  title_uz : String
  title_ko : String
  content_uz : String
  content_ko : String
  university : Nat
deriving DecidableEq

/-- Embedding of `management.models.Student`, restricted to identity and the
`created_at` timestamp that drives the model's default ordering
(`Meta.ordering = ["-created_at"]`). A Student has no owning-university
column; `university` on the model is a free-text education-history field. -/
structure StudentRow where
  id : Nat
  student_id : String
  name_ko : String
  name_uz : String
  created_at : Nat
deriving DecidableEq

/-- The relational store as seen by the read views of the claims. -/
structure DB where
  managers : List ManagerRow
  universities : List Nat
  news : List BoardRow
  notices : List BoardRow
  informations : List BoardRow
  translations : List TranslationRow
  students : List StudentRow
deriving DecidableEq

/-- Embedding of `board.views.get_user_university`: for a principal in group
`university_staff`, resolve the bound University through the (unique)
`UniversityManager` row; `DoesNotExist` is caught and yields `None`. -/
def getUserUniversity (managers : List ManagerRow) (u : Principal) : Option Nat :=
  if hasGroup u.groups "university_staff" then
    (managers.find? (fun m => m.user == u.id)).map (fun m => m.university)
  else
    none

/-- Embedding of `board.views.filter_by_permissions`, generic in the queryset's row type:
`upsight_staff` sees every row; a principal resolving to a university sees
the rows owned by it; anyone else gets `queryset.none()`. -/
def filter_by_permissions (univOf : α → Nat) (managers : List ManagerRow)
    (rows : List α) (u : Principal) : List α :=
  if hasGroup u.groups "upsight_staff" then
    rows
  else
    match getUserUniversity managers u with
    | some uni => rows.filter (fun r => univOf r == uni)
    | none => []

/-- Outcome of a list endpoint: 403 for principals in neither staff group,
otherwise the serialized rows. -/
inductive ListResult (α : Type) where
  | forbidden
  | ok (rows : List α)
deriving DecidableEq

/-- Embedding of `board.views.news_list`: staff check, query ordered by `-date`, then
`filter_by_permissions`. -/
def newsList (db : DB) (u : Principal) : ListResult BoardRow :=
  if ¬(hasGroup u.groups "upsight_staff" ∨ hasGroup u.groups "university_staff") then
    .forbidden
  else
    .ok (filter_by_permissions (fun r => r.university) db.managers
      (sortByKeyDesc (fun r => r.date) db.news) u)

/-- Embedding of `board.views.notices_list`: same shape as `news_list` over `Notice`. -/
def noticesList (db : DB) (u : Principal) : ListResult BoardRow :=
  if ¬(hasGroup u.groups "upsight_staff" ∨ hasGroup u.groups "university_staff") then
    .forbidden
  else
    .ok (filter_by_permissions (fun r => r.university) db.managers
      (sortByKeyDesc (fun r => r.date) db.notices) u)

/-- Embedding of `board.views.information_list`: same shape over `Information`
(ordered by `-date`). -/
def informationList (db : DB) (u : Principal) : ListResult BoardRow :=
  if ¬(hasGroup u.groups "upsight_staff" ∨ hasGroup u.groups "university_staff") then
    .forbidden
  else
    .ok (filter_by_permissions (fun r => r.university) db.managers
      (sortByKeyDesc (fun r => r.date) db.informations) u)

/-- Embedding of `board.views.translations_list`: no `order_by`, otherwise the same
shape over `Translation`. -/
def translationsList (db : DB) (u : Principal) : ListResult TranslationRow :=
  if ¬(hasGroup u.groups "upsight_staff" ∨ hasGroup u.groups "university_staff") then
    .forbidden
  else
    .ok (filter_by_permissions (fun r => r.university) db.managers db.translations u)

/-- Embedding of `management.views.students_list`: any authenticated principal reaches the
query; `upsight_staff` gets every student, everyone else gets
`Student.objects.all()[:1]` — the first student under the model's default
`-created_at` ordering, with no university filter of any kind. The second
component is the reported `access_level`. -/
def studentsList (db : DB) (u : Principal) : List StudentRow × String :=
  let ordered := sortByKeyDesc (fun s => s.created_at) db.students
  if hasGroup u.groups "upsight_staff" then
    (ordered, "full")
  else
    (ordered.take 1, "limited")

/-! ## C1: role-scoped list operations -/

/-- A database holding exactly one student, and a principal in neither staff
group. -/
def dbOneStudent : DB :=
  { managers := [], universities := [], news := [], notices := [],
    informations := [], translations := [],
    students := [⟨1, "S001", "Kim", "Anvar", 10⟩] }

/-- An authenticated principal that belongs to no staff group. -/
def outsider : Principal := ⟨7, []⟩

/-- C1 counterexample: the claim says a principal in neither staff role gets
no rows from every University-scoped list, "in particular the students
list"; but `students_list` hands any non-`upsight_staff` principal the first
student (`Student.objects.all()[:1]`), with no role or university filter, so
a no-role principal receives one row. -/
theorem c1_students_list_leaks_row :
    studentsList dbOneStudent outsider
        = ([⟨1, "S001", "Kim", "Anvar", 10⟩], "limited")
      ∧ hasGroup outsider.groups "upsight_staff" = false
      ∧ hasGroup outsider.groups "university_staff" = false := by
  refine ⟨rfl, rfl, rfl⟩

/-- C1 (amended): the four board lists apply the role scope exactly as
claimed — a scoped-staff principal bound to university `U` gets exactly the
rows owned by `U`, global staff get every row, and a principal in neither
staff role is rejected (403) — but the students list is not
university-scoped at all: it returns all students to global staff and the
first student under `-created_at` ordering (at most one row, regardless of
role or university) to every other authenticated principal. -/
theorem c1_scoped_lists :
    (∀ (db : DB) (u : Principal) (U : Nat),
      hasGroup u.groups "university_staff" = true →
      hasGroup u.groups "upsight_staff" = false →
      getUserUniversity db.managers u = some U →
      (∃ rows, newsList db u = .ok rows
          ∧ List.Perm rows (db.news.filter (fun r => r.university == U)))
      ∧ (∃ rows, noticesList db u = .ok rows
          ∧ List.Perm rows (db.notices.filter (fun r => r.university == U)))
      ∧ (∃ rows, informationList db u = .ok rows
          ∧ List.Perm rows (db.informations.filter (fun r => r.university == U)))
      ∧ translationsList db u
          = .ok (db.translations.filter (fun r => r.university == U))
      ∧ studentsList db u
          = ((sortByKeyDesc (fun s => s.created_at) db.students).take 1,
             "limited"))
  ∧ (∀ (db : DB) (u : Principal),
      hasGroup u.groups "upsight_staff" = true →
      (∃ rows, newsList db u = .ok rows ∧ List.Perm rows db.news)
      ∧ (∃ rows, noticesList db u = .ok rows ∧ List.Perm rows db.notices)
      ∧ (∃ rows, informationList db u = .ok rows
          ∧ List.Perm rows db.informations)
      ∧ translationsList db u = .ok db.translations
      ∧ studentsList db u
          = (sortByKeyDesc (fun s => s.created_at) db.students, "full"))
  ∧ (∀ (db : DB) (u : Principal),
      hasGroup u.groups "upsight_staff" = false →
      hasGroup u.groups "university_staff" = false →
      newsList db u = .forbidden
      ∧ noticesList db u = .forbidden
      ∧ informationList db u = .forbidden
      ∧ translationsList db u = .forbidden
      ∧ studentsList db u
          = ((sortByKeyDesc (fun s => s.created_at) db.students).take 1,
             "limited")) := by
  refine ⟨?_, ?_, ?_⟩
  · intro db u U hs hg hb
    have hnews : newsList db u
        = .ok ((sortByKeyDesc (fun r => r.date) db.news).filter
            (fun r => r.university == U)) := by
      simp [newsList, hs, hg, filter_by_permissions, hb]
    have hnotices : noticesList db u
        = .ok ((sortByKeyDesc (fun r => r.date) db.notices).filter
            (fun r => r.university == U)) := by
      simp [noticesList, hs, hg, filter_by_permissions, hb]
    have hinfo : informationList db u
        = .ok ((sortByKeyDesc (fun r => r.date) db.informations).filter
            (fun r => r.university == U)) := by
      simp [informationList, hs, hg, filter_by_permissions, hb]
    refine ⟨⟨_, hnews, List.Perm.filter _ (sortByKeyDesc_perm _ _)⟩,
            ⟨_, hnotices, List.Perm.filter _ (sortByKeyDesc_perm _ _)⟩,
            ⟨_, hinfo, List.Perm.filter _ (sortByKeyDesc_perm _ _)⟩, ?_, ?_⟩
    · simp [translationsList, hs, hg, filter_by_permissions, hb]
    · simp [studentsList, hg]
  · intro db u hg
    have hnews : newsList db u
        = .ok (sortByKeyDesc (fun r => r.date) db.news) := by
      simp [newsList, hg, filter_by_permissions]
    have hnotices : noticesList db u
        = .ok (sortByKeyDesc (fun r => r.date) db.notices) := by
      simp [noticesList, hg, filter_by_permissions]
    have hinfo : informationList db u
        = .ok (sortByKeyDesc (fun r => r.date) db.informations) := by
      simp [informationList, hg, filter_by_permissions]
    refine ⟨⟨_, hnews, sortByKeyDesc_perm _ _⟩,
            ⟨_, hnotices, sortByKeyDesc_perm _ _⟩,
            ⟨_, hinfo, sortByKeyDesc_perm _ _⟩, ?_, ?_⟩
    · simp [translationsList, hg, filter_by_permissions]
    · simp [studentsList, hg]
  · intro db u hg hs
    exact ⟨by simp [newsList, hg, hs], by simp [noticesList, hg, hs],
      by simp [informationList, hg, hs], by simp [translationsList, hg, hs],
      by simp [studentsList, hg]⟩

/-- A store with content owned by two universities and one scoped manager. -/
def dbTwoUniversities : DB :=
  { managers := [⟨5, 1⟩], universities := [1, 2],
    news := [⟨1, "a", "b", "c", "d", 1, 3⟩, ⟨2, "e", "f", "g", "h", 2, 4⟩],
    notices := [⟨3, "i", "j", "k", "l", 2, 5⟩],
    informations := [⟨4, "m", "n", "o", "p", 1, 6⟩],
    translations := [⟨5, "q", "r", "s", "t", 1⟩],
    students := [⟨1, "S001", "Kim", "Anvar", 10⟩, ⟨2, "S002", "Lee", "Bobur", 11⟩] }

/-- The manager principal of university 1 in `dbTwoUniversities`. -/
def scopedStaff : Principal := ⟨5, ["university_staff"]⟩

/-- Witness for `c1_scoped_lists` at a concrete store and principal. -/
theorem c1_scoped_lists_witness :
    (hasGroup scopedStaff.groups "university_staff" = true
      ∧ hasGroup scopedStaff.groups "upsight_staff" = false
      ∧ getUserUniversity dbTwoUniversities.managers scopedStaff = some 1)
  ∧ ((∃ rows, newsList dbTwoUniversities scopedStaff = .ok rows
        ∧ List.Perm rows
            (dbTwoUniversities.news.filter (fun r => r.university == 1)))
    ∧ (∃ rows, noticesList dbTwoUniversities scopedStaff = .ok rows
        ∧ List.Perm rows
            (dbTwoUniversities.notices.filter (fun r => r.university == 1)))
    ∧ (∃ rows, informationList dbTwoUniversities scopedStaff = .ok rows
        ∧ List.Perm rows
            (dbTwoUniversities.informations.filter (fun r => r.university == 1)))
    ∧ translationsList dbTwoUniversities scopedStaff
        = .ok (dbTwoUniversities.translations.filter (fun r => r.university == 1))
    ∧ studentsList dbTwoUniversities scopedStaff
        = ((sortByKeyDesc (fun s => s.created_at)
             dbTwoUniversities.students).take 1, "limited")) :=
  ⟨⟨rfl, rfl, rfl⟩,
    c1_scoped_lists.1 dbTwoUniversities scopedStaff 1 rfl rfl rfl⟩

/-! ## C2: bilingual read accessors -/

/-- Embedding of `main.models.News`, restricted to its bilingual text columns (both
nullable; an absent value is modelled as the empty string, which is equally
falsy in Python). -/
structure MainNews where
  title_uz : String
  title_ko : String
  content_uz : String
  content_ko : String
deriving DecidableEq

/-- Embedding of `main.models.News.get_title(language="ko")`: returns the requested
language's column verbatim — there is no emptiness test and no fallback.
`main.serializers.NewsSerializer.get_title` computes the same expression
with `language` drawn from the context (default `"ko"`). -/
def MainNews.get_title (n : MainNews) (language : String := "ko") : String :=
  if language = "ko" then n.title_ko else n.title_uz

/-- Embedding of `main.models.News.get_content(language="ko")`: same shape as
`get_title`. -/
def MainNews.get_content (n : MainNews) (language : String := "ko") : String :=
  if language = "ko" then n.content_ko else n.content_uz

/-- Modelled from the spec: `resolve(pair, preferred_language)` returns the
preferred-language value if non-empty, else the other language's value, else
empty.  (This definition follows the spec's words, for comparison with the
accessors translated from the source.) -/
def resolveSpec (uz ko preferred : String) : String :=
  if preferred = "ko" then pyOr ko uz else pyOr uz ko

/-- Embedding of `board.serializers.NewsSerializer.get_title`: `obj.title_ko or
obj.title_uz` (no language parameter; preference fixed to Korean).
`NoticeSerializer`, `TranslationSerializer` and `InformationSerializer`
carry the identical expression. -/
def boardTitle (b : BoardRow) : String :=
  pyOr b.title_ko b.title_uz

/-- Embedding of `board.serializers.NewsSerializer.get_content`: `obj.content_ko or
obj.content_uz`. -/
def boardContent (b : BoardRow) : String :=
  pyOr b.content_ko b.content_uz

/-- The News item of the claim's scenario: `title_uz="Xabar"`,
`title_ko=""`. -/
def xabarNews : MainNews := ⟨"Xabar", "", "", ""⟩

/-- C2 counterexample: on a News item created with `title_uz="Xabar"`,
`title_ko=""`, `get_title()` (preferred language defaulting to Korean)
returns the empty Korean title, not `"Xabar"` — the accessor does not fall
back to the other language as the claim states. -/
theorem c2_no_fallback_counterexample :
    xabarNews.get_title = "" ∧ xabarNews.get_title ≠ "Xabar" := by
  refine ⟨rfl, by decide⟩

/-- C2 (amended): only the board serializers' combined fields implement the
spec's fallback rule, with the preference fixed to Korean; the
main-vertical accessors `get_title`/`get_content` return the requested
language's column verbatim, with no fallback on emptiness (so the scenario
item with `title_uz="Xabar"`, `title_ko=""` reads as `""`). -/
theorem c2_resolve_accessors :
    (∀ b : BoardRow,
        boardTitle b = resolveSpec b.title_uz b.title_ko "ko"
      ∧ boardContent b = resolveSpec b.content_uz b.content_ko "ko")
  ∧ (∀ n : MainNews,
        n.get_title = n.title_ko
      ∧ n.get_title "uz" = n.title_uz
      ∧ n.get_content = n.content_ko
      ∧ n.get_content "uz" = n.content_uz) := by
  constructor
  · intro b
    exact ⟨rfl, rfl⟩
  · intro n
    refine ⟨rfl, ?_, rfl, ?_⟩
    · simp [MainNews.get_title]
    · simp [MainNews.get_content]

/-! ## C3 / C7: the finance payment aggregator

`management.views.finance_payments_list` merges the two payment tables into
one list of row-dicts, sorts it by date descending and reports totals.
Building a class-payment row evaluates `payment.payment_month`, but
`management.models.ClassPayment` (lines 536-546) declares only `date`,
`amount`, `student` and `class_model`; the attribute access raises
`AttributeError`, which the view's blanket `except Exception` turns into a
500 response. -/

/-- The student columns the finance rows read. -/
structure StudentRef where
  student_id : String
  name_ko : String
  name_uz : String
deriving DecidableEq

/-- The `Enterance` columns (with its university's name columns) the
entrance-payment rows read. -/
structure EnteranceRef where
  years : Nat
  kind : String
  order : String
  uniName_ko : String
  uniName_uz : String
deriving DecidableEq

/-- The `Class` columns the class-payment rows read. -/
structure ClassRef where
  group : Option Nat
  level : String
  lecture : String
deriving DecidableEq

/-- Embedding of `management.models.EnterancePayment`: date, amount, student, enterance. -/
structure EnterancePayment where
  pk : Nat
  date : Nat
  amount : Int
  student : StudentRef
  enterance : EnteranceRef
deriving DecidableEq

/-- Embedding of `management.models.ClassPayment` (lines 536-546): its only fields are
`date`, `amount`, `student` and `class_model`.  In particular there is no
`payment_month` column. -/
structure ClassPayment where
  pk : Nat
  date : Nat
  amount : Int
  student : StudentRef
  class_model : ClassRef
deriving DecidableEq

/-- Django `get_kind_display()` over `Enterance.KIND_OPTIONS` (an unknown
stored value is echoed back, as Django does). -/
def kindDisplay : String → String
  | "language" => "Language"
  | "collegue" => "Collegue"
  | "university" => "University"
  | "graduate" => "Graduate"
  | s => s

/-- Django `get_order_display()` over `Enterance.ORDER_OPTIONS`. -/
def orderDisplay : String → String
  | "1" => "1st"
  | "2" => "2nd"
  | "3" => "3rd"
  | "4" => "4th"
  | "spring" => "Spring"
  | "winter" => "Winter"
  | s => s

/-- Django `get_level_display()` over `Class.LEVEL_OPTIONS`. -/
def levelDisplay : String → String
  | "low" => "Low"
  | "intermediate" => "Intermediate"
  | "high" => "High"
  | s => s

/-- Django `get_lecture_display()` over `Class.LECTURE_OPTIONS`. -/
def lectureDisplay : String → String
  | "topik" => "TOPIK"
  | "aboard" => "Aboard"
  | "nurse" => "Nurse"
  | "it" => "IT"
  | "others" => "Others"
  | s => s

/-- Python `f"...{x}..."` on an optional number: `None` prints as "None". -/
def pyReprOptNat : Option Nat → String
  | none => "None"
  | some n => toString n

/-- One entry of `payments_data`: the unified dict the view builds for each
payment. -/
structure FinanceRow where
  id : String
  original_id : Nat
  date : Nat
  amount : Int
  payment_type : String
  student_id : String
  student_name_ko : String
  student_name_uz : String
  university_name : Option String
  enterance_info : Option String
  payment_month : Option Nat
  payment_month_display : Option String
  class_info : Option String
deriving DecidableEq

/-- The dict built for an entrance payment (view lines 584-602);
`str(university)` is `f"{name_ko} / {name_uz}"`. -/
def entranceRow (p : EnterancePayment) : FinanceRow :=
  { id := "entrance_" ++ toString p.pk
    original_id := p.pk
    date := p.date
    amount := p.amount
    payment_type := "entrance"
    student_id := p.student.student_id
    student_name_ko := p.student.name_ko
    student_name_uz := p.student.name_uz
    university_name := some (p.enterance.uniName_ko ++ " / " ++ p.enterance.uniName_uz)
    enterance_info := some (toString p.enterance.years ++ " - "
      ++ kindDisplay p.enterance.kind ++ " (" ++ orderDisplay p.enterance.order ++ ")")
    payment_month := none
    payment_month_display := none
    class_info := none }

/-- Errors surfacing from the embedded Python evaluation. -/
inductive PyError where
  | attributeError
deriving DecidableEq

/-- Attribute lookup `payment.payment_month` against the `ClassPayment`
model: the model declares no such field, so the lookup yields nothing. -/
def ClassPayment.payment_month_attr (_ : ClassPayment) : Option Nat :=
  none

/-- The dict the view tries to build for a class payment (lines 605-623):
constructing it evaluates `payment.payment_month`, which raises
`AttributeError` since the model has no such field.  The `some` branch
spells out the row the code would otherwise build. -/
def classRow (p : ClassPayment) : Except PyError FinanceRow :=
  match p.payment_month_attr with
  | none => .error .attributeError
  | some m =>
      .ok { id := "class_" ++ toString p.pk
            original_id := p.pk
            date := p.date
            amount := p.amount
            payment_type := "class"
            student_id := p.student.student_id
            student_name_ko := p.student.name_ko
            student_name_uz := p.student.name_uz
            university_name := none
            enterance_info := none
            payment_month := some m
            payment_month_display := some ("Month " ++ toString m)
            class_info := some ("Group " ++ pyReprOptNat p.class_model.group ++ " - "
              ++ levelDisplay p.class_model.level ++ " "
              ++ lectureDisplay p.class_model.lecture) }

/-- Embedding of `payments_data` before sorting: entrance rows appended first, then class
rows, each table in fetch order. -/
def buildRows (eps : List EnterancePayment) (cps : List ClassPayment) :
    Except PyError (List FinanceRow) := do
  let crows ← cps.mapM classRow
  pure (eps.map entranceRow ++ crows)

/-- The success payload of `finance_payments_list`: the sorted rows plus the
totals block.  `Decimal` amounts and their `float(...)` conversions are
modelled as exact rationals. -/
structure FinanceResponse where
  payments : List FinanceRow
  total_count : Nat
  total_amount : Int
  entrance_payments_total : Int
  class_payments_total : Int
  entrance_payments_count : Nat
  class_payments_count : Nat
deriving DecidableEq

/-- Outcome of the finance endpoint. -/
inductive FinanceOutcome where
  | forbidden
  | internalError
  | ok (resp : FinanceResponse)
deriving DecidableEq

/-- Embedding of `management.views.finance_payments_list`: permission gate, row building
(aborting to the blanket `except Exception` → 500 on the missing
`payment_month` attribute), stable descending sort by date, and totals
computed over the sorted `payments_data`. -/
def financePaymentsList (u : Principal) (eps : List EnterancePayment)
    (cps : List ClassPayment) : FinanceOutcome :=
  if ¬hasGroup u.groups "upsight_staff" then
    .forbidden
  else
    match buildRows eps cps with
    | .error _ => .internalError
    | .ok rows =>
        let sorted := sortByKeyDesc (fun r => r.date) rows
        .ok { payments := sorted
              total_count := sorted.length
              total_amount := (sorted.map (fun r => r.amount)).sum
              entrance_payments_total :=
                ((sorted.filter (fun r => r.payment_type == "entrance")).map
                  (fun r => r.amount)).sum
              class_payments_total :=
                ((sorted.filter (fun r => r.payment_type == "class")).map
                  (fun r => r.amount)).sum
              entrance_payments_count :=
                (sorted.filter (fun r => r.payment_type == "entrance")).length
              class_payments_count :=
                (sorted.filter (fun r => r.payment_type == "class")).length }

/-- A global-staff principal for the finance endpoint. -/
def financeStaff : Principal := ⟨1, ["upsight_staff"]⟩

/-- Scenario E's entrance payment: amount 500000. -/
def scenarioEntrancePayment : EnterancePayment :=
  ⟨1, 20, 500000, ⟨"S001", "Kim", "Anvar"⟩, ⟨2026, "language", "1", "Uni", "Universitet"⟩⟩

/-- Scenario E's class payment: amount 300000. -/
def scenarioClassPayment : ClassPayment :=
  ⟨1, 21, 300000, ⟨"S001", "Kim", "Anvar"⟩, ⟨some 1, "low", "topik"⟩⟩

/-- C3: evaluating the view at Scenario E's own input (one entrance payment
of 500000 and one class payment of 300000, queried by global staff): the
class-payment row evaluates the missing `ClassPayment.payment_month`
attribute, so the endpoint answers 500 instead of the claimed totals
`total_amount=800000`, `entrance_payments_total=500000`,
`class_payments_total=300000`. -/
theorem c3_scenarioE_crashes :
    financePaymentsList financeStaff [scenarioEntrancePayment] [scenarioClassPayment]
        = .internalError
      ∧ buildRows [scenarioEntrancePayment] [scenarioClassPayment]
        = .error .attributeError := by
  exact ⟨rfl, rfl⟩

/-- A second global-staff principal, for the ordering claim's store. -/
def orderingStaff : Principal := ⟨2, ["upsight_staff"]⟩

/-- An entrance payment dated like the class payment below. -/
def tieEntrancePayment : EnterancePayment :=
  ⟨3, 30, 100, ⟨"S002", "Lee", "Bobur"⟩, ⟨2027, "university", "2", "Uni", "Universitet"⟩⟩

/-- A class payment sharing `tieEntrancePayment`'s date. -/
def tieClassPayment : ClassPayment :=
  ⟨4, 30, 200, ⟨"S002", "Lee", "Bobur"⟩, ⟨some 2, "high", "it"⟩⟩

/-- C7 counterexample: with one entrance payment and one class payment of
the same date in the store, `finance_payments_list` does not return a merged
sequence at all (the class row's `payment_month` access raises, the view
answers 500), so the claimed ordering of the merged sequence — in particular
"every entrance payment before every class payment of the same date" — never
materialises whenever a class payment exists. -/
theorem c7_mixed_kinds_yield_no_sequence :
    financePaymentsList orderingStaff [tieEntrancePayment] [tieClassPayment]
      = .internalError := by
  exact rfl

/-- C7 (amended): whenever `finance_payments_list` does return a merged
sequence (`.ok`), that sequence is the stable descending-by-date sort of the
row list built by appending entrance rows (fetch order) then class rows
(fetch order): it is sorted by date in non-increasing order, and for every
date the records carrying that date appear exactly in insertion order. -/
theorem c7_sorted_and_stable (u : Principal) (eps : List EnterancePayment)
    (cps : List ClassPayment) (resp : FinanceResponse)
    (h : financePaymentsList u eps cps = .ok resp) :
    ∃ merged, buildRows eps cps = .ok merged
      ∧ resp.payments = sortByKeyDesc (fun r => r.date) merged
      ∧ resp.payments.Sorted (fun a b => b.date ≤ a.date)
      ∧ ∀ d, resp.payments.filter (fun r => r.date == d)
          = merged.filter (fun r => r.date == d) := by
  unfold financePaymentsList at h
  by_cases hg : hasGroup u.groups "upsight_staff"
  · simp only [hg, not_true_eq_false, if_false] at h
    cases hb : buildRows eps cps with
    | error e =>
        rw [hb] at h
        exact absurd h (by simp)
    | ok rows =>
        rw [hb] at h
        simp only [FinanceOutcome.ok.injEq] at h
        refine ⟨rows, rfl, ?_, ?_, ?_⟩
        · rw [← h]
        · rw [← h]
          exact sortByKeyDesc_sorted _ _
        · intro d
          rw [← h]
          exact sortByKeyDesc_filter_stable _ d rows
  · simp [hg] at h

/-- The witness store for the ordering claim: two entrance payments, no
class payment (the success case of the endpoint). -/
def witnessEps : List EnterancePayment :=
  [⟨1, 5, 100, ⟨"S003", "Park", "Davron"⟩,
      ⟨2026, "language", "1", "Uni", "Universitet"⟩⟩,
    ⟨2, 7, 50, ⟨"S003", "Park", "Davron"⟩,
      ⟨2026, "language", "1", "Uni", "Universitet"⟩⟩]

/-- The concrete response the endpoint produces on `witnessEps`. -/
def witnessFinanceResp : FinanceResponse :=
  { payments := [entranceRow ⟨2, 7, 50, ⟨"S003", "Park", "Davron"⟩,
        ⟨2026, "language", "1", "Uni", "Universitet"⟩⟩,
      entranceRow ⟨1, 5, 100, ⟨"S003", "Park", "Davron"⟩,
        ⟨2026, "language", "1", "Uni", "Universitet"⟩⟩]
    total_count := 2
    total_amount := 150
    entrance_payments_total := 150
    class_payments_total := 0
    entrance_payments_count := 2
    class_payments_count := 0 }

/-- Witness for `c7_sorted_and_stable` at a concrete store on which the
endpoint succeeds. -/
theorem c7_sorted_and_stable_witness :
    financePaymentsList orderingStaff witnessEps [] = .ok witnessFinanceResp
  ∧ (∃ merged, buildRows witnessEps [] = .ok merged
      ∧ witnessFinanceResp.payments = sortByKeyDesc (fun r => r.date) merged
      ∧ witnessFinanceResp.payments.Sorted (fun a b => b.date ≤ a.date)
      ∧ ∀ d, witnessFinanceResp.payments.filter (fun r => r.date == d)
          = merged.filter (fun r => r.date == d)) :=
  ⟨rfl, c7_sorted_and_stable orderingStaff witnessEps [] witnessFinanceResp rfl⟩

/-! ## C4 / C9: `Employee.save` and `UniversityManager.save`

Both `save` overrides (management/models.py lines 197-222 and 605-629) hash
a fresh plaintext password, insert the entity row with `super().save()`, and
only then create the paired `django.contrib.auth` user and put it in its
role group.  The method opens no transaction: the row insert commits on its
own (Django autocommit), so a failure while creating the principal — e.g. a
unique-username collision — leaves the entity row in place with `user`
unset. -/

/-- Models `django.contrib.auth.hashers.make_password`: the default PBKDF2
hasher returns an encoded string beginning with the algorithm tag
`"pbkdf2_sha256$"`; the digest payload is abstracted to the input, which is
all the claims depend on (the tag prefix and being distinct from the
plaintext). -/
def makePassword (s : String) : String :=
  "pbkdf2_sha256$" ++ s

/-- Python `s.startswith(pre)`: character-wise prefix test. -/
def pyStartswith (s pre : String) : Bool :=
  pre.data.isPrefixOf s.data

/-- The password-hashing guard shared verbatim by `Employee.save`,
`UniversityManager.save` and `OrganManager.save`:
`if self.password and not self.password.startswith("pbkdf2_")`. -/
def hashOnCreate (p : String) : String :=
  if p != "" && !(pyStartswith p "pbkdf2_") then makePassword p else p

/-- A `django.contrib.auth` user row; group membership is carried on the
user (the `Group` table itself is the `groupNames` list of `AuthDB`). -/
structure AuthUser where
  username : String
  first_name : String
  email : String
  password : String
  is_active : Bool
  is_staff : Bool
  groups : List String
deriving DecidableEq

/-- Embedding of `management.models.Employee`, restricted to the columns `save` touches.
`pk = none` means the instance has not been inserted yet; `user` holds the
username of the paired principal. -/
structure Employee where
  pk : Option Nat
  employee_id : String
  name_ko : String
  name_uz : String
  email : String
  password : String
  user : Option String
deriving DecidableEq

/-- Embedding of `management.models.UniversityManager`, restricted likewise. -/
structure UManager where
  pk : Option Nat
  university : Nat
  name_uz : String
  name_ko : String
  manager_id : Nat
  password : String
  user : Option String
deriving DecidableEq

/-- The auth-side store: entity tables, auth users, the `Group` table, and
the next primary key to hand out. -/
structure AuthDB where
  nextPk : Nat
  employees : List Employee
  umanagers : List UManager
  users : List AuthUser
  groupNames : List String
deriving DecidableEq

/-- A storage-level failure. -/
inductive DbError where
  | integrityError
deriving DecidableEq

/-- Embedding of `Group.objects.get_or_create(name=g)` followed by `user.groups.add`:
ensure the group exists and return the store with it present. -/
def ensureGroup (names : List String) (g : String) : List String :=
  if names.contains g then names else names ++ [g]

/-- Embedding of `Employee.save` (management/models.py lines 197-222).  On a new instance
(`pk is None`): hash the password if needed, `super().save()` (the INSERT
commits by itself — the method opens no transaction), then
`User.objects.create(username=self.employee_id, ...)` — `User.username` is
unique, so a clash raises `IntegrityError` after the row is already in —
then group assignment and a second `save(update_fields=["user"])`.  On an
existing instance it is a plain field update. -/
def Employee.save (db : AuthDB) (e : Employee) : AuthDB × Except DbError Unit :=
  match e.pk with
  | some pk =>
      ({ db with employees :=
          db.employees.map (fun r => if r.pk == some pk then e else r) }, .ok ())
  | none =>
      let pwd := hashOnCreate e.password
      if db.employees.any (fun r => r.employee_id == e.employee_id) then
        (db, .error .integrityError)
      else
        let row : Employee :=
          { e with pk := some db.nextPk, password := pwd, user := none }
        let db1 :=
          { db with employees := db.employees ++ [row], nextPk := db.nextPk + 1 }
        if db1.users.any (fun us => us.username == e.employee_id) then
          (db1, .error .integrityError)
        else
          let usr : AuthUser :=
            { username := e.employee_id
              first_name := pyOr e.name_ko e.name_uz
              email := e.email
              password := pwd
              is_active := true
              is_staff := true
              groups := ["upsight_staff"] }
          let db2 :=
            { db1 with users := db1.users ++ [usr]
                       groupNames := ensureGroup db1.groupNames "upsight_staff" }
          let db3 :=
            { db2 with employees :=
                db2.employees.map (fun r =>
                  if r.pk == some db.nextPk
                  then { r with user := some usr.username } else r) }
          (db3, .ok ())

/-- Embedding of `UniversityManager.save` (management/models.py lines 605-629): the same
choreography with `username=self.manager_id` (stringified) and role group
`"university_staff"`; the manager's user row carries no email. -/
def UManager.save (db : AuthDB) (m : UManager) : AuthDB × Except DbError Unit :=
  match m.pk with
  | some pk =>
      ({ db with umanagers :=
          db.umanagers.map (fun r => if r.pk == some pk then m else r) }, .ok ())
  | none =>
      let pwd := hashOnCreate m.password
      if db.umanagers.any (fun r => r.manager_id == m.manager_id) then
        (db, .error .integrityError)
      else
        let row : UManager :=
          { m with pk := some db.nextPk, password := pwd, user := none }
        let db1 :=
          { db with umanagers := db.umanagers ++ [row], nextPk := db.nextPk + 1 }
        if db1.users.any (fun us => us.username == toString m.manager_id) then
          (db1, .error .integrityError)
        else
          let usr : AuthUser :=
            { username := toString m.manager_id
              first_name := pyOr m.name_ko m.name_uz
              email := ""
              password := pwd
              is_active := true
              is_staff := true
              groups := ["university_staff"] }
          let db2 :=
            { db1 with users := db1.users ++ [usr]
                       groupNames := ensureGroup db1.groupNames "university_staff" }
          let db3 :=
            { db2 with umanagers :=
                db2.umanagers.map (fun r =>
                  if r.pk == some db.nextPk
                  then { r with user := some usr.username } else r) }
          (db3, .ok ())

/-- A store already holding an auth user named "E100" (and no employees). -/
def dbUserE100 : AuthDB :=
  { nextPk := 1, employees := [], umanagers := [],
    users := [⟨"E100", "Existing", "old@x.test", "pw", true, false, []⟩],
    groupNames := [] }

/-- A fresh Employee "E100" about to be created. -/
def newEmployeeE100 : Employee :=
  ⟨none, "E100", "Kim", "", "kim@x.test", "secret", none⟩

/-- C4 counterexample: creating Employee "E100" while an auth user of that
name already exists makes `User.objects.create` fail, yet the Employee row —
inserted before the principal and outside any transaction opened by `save` —
persists with no paired principal, contradicting "if principal creation
fails, the Employee row does not persist". -/
theorem c4_orphan_employee_row :
    (Employee.save dbUserE100 newEmployeeE100).2 = .error .integrityError
  ∧ (Employee.save dbUserE100 newEmployeeE100).1.employees
      = [⟨some 1, "E100", "Kim", "", "kim@x.test",
          "pbkdf2_sha256$secret", none⟩]
  ∧ (Employee.save dbUserE100 newEmployeeE100).1.users.any
      (fun us => us.groups.contains "upsight_staff") = false := by
  refine ⟨rfl, rfl, rfl⟩

/-- C4 (amended): on a fresh save with no conflicting rows, `Employee.save`
does provision a paired auth user named after `employee_id`, in group
`"upsight_staff"`, and links the row to it; but the row insert precedes the
principal creation and `save` opens no transaction, so when the principal
creation fails (a username collision) the already-inserted Employee row
remains, with `user` unset. -/
theorem c4_employee_principal_provisioning (db : AuthDB) (e : Employee)
    (hnew : e.pk = none)
    (hemp : db.employees.any (fun r => r.employee_id == e.employee_id) = false) :
    (db.users.any (fun us => us.username == e.employee_id) = false →
      (Employee.save db e).2 = .ok ()
      ∧ (∃ us, us ∈ (Employee.save db e).1.users
          ∧ us.username = e.employee_id
          ∧ us.groups.contains "upsight_staff" = true)
      ∧ (∃ r, r ∈ (Employee.save db e).1.employees
          ∧ r.employee_id = e.employee_id ∧ r.user = some e.employee_id))
  ∧ (db.users.any (fun us => us.username == e.employee_id) = true →
      (Employee.save db e).2 = .error .integrityError
      ∧ (∃ r, r ∈ (Employee.save db e).1.employees
          ∧ r.employee_id = e.employee_id ∧ r.user = none)) := by
  constructor
  · intro hfree
    have hsave : Employee.save db e
        = ({ nextPk := db.nextPk + 1
             employees := (db.employees ++
               [{ e with
                    pk := some db.nextPk
                    password := hashOnCreate e.password
                    user := none }]).map
                 (fun (r : Employee) => if r.pk == some db.nextPk
                   then { r with user := some e.employee_id } else r)
             umanagers := db.umanagers
             users := db.users ++
               [{ username := e.employee_id
                  first_name := pyOr e.name_ko e.name_uz
                  email := e.email
                  password := hashOnCreate e.password
                  is_active := true
                  is_staff := true
                  groups := ["upsight_staff"] }]
             groupNames := ensureGroup db.groupNames "upsight_staff" },
           .ok ()) := by
      simp [Employee.save, hnew, hemp, hfree]
    refine ⟨by rw [hsave], ?_, ?_⟩
    · refine ⟨{ username := e.employee_id
                first_name := pyOr e.name_ko e.name_uz
                email := e.email
                password := hashOnCreate e.password
                is_active := true
                is_staff := true
                groups := ["upsight_staff"] }, ?_, rfl, rfl⟩
      rw [hsave]
      exact List.mem_append_right _ (List.mem_singleton.mpr rfl)
    · refine ⟨{ e with
                  pk := some db.nextPk
                  password := hashOnCreate e.password
                  user := some e.employee_id }, ?_, rfl, rfl⟩
      rw [hsave]
      show _ ∈ List.map _ (db.employees ++ [_])
      refine List.mem_map.mpr ⟨{ e with
        pk := some db.nextPk
        password := hashOnCreate e.password
        user := none }, ?_, ?_⟩
      · exact List.mem_append_right _ (List.mem_singleton.mpr rfl)
      · simp
  · intro hclash
    have hsave : Employee.save db e
        = ({ nextPk := db.nextPk + 1
             employees := db.employees ++
               [{ e with
                    pk := some db.nextPk
                    password := hashOnCreate e.password
                    user := none }]
             umanagers := db.umanagers
             users := db.users
             groupNames := db.groupNames },
           .error .integrityError) := by
      simp [Employee.save, hnew, hemp, hclash]
    refine ⟨by rw [hsave],
      ⟨{ e with
           pk := some db.nextPk
           password := hashOnCreate e.password
           user := none }, ?_, rfl, rfl⟩⟩
    rw [hsave]
    exact List.mem_append_right _ (List.mem_singleton.mpr rfl)

/-- An empty auth store. -/
def emptyAuthDB : AuthDB :=
  { nextPk := 1, employees := [], umanagers := [], users := [], groupNames := [] }

/-- Witness for `c4_employee_principal_provisioning` on an empty store. -/
theorem c4_employee_principal_provisioning_witness :
    (newEmployeeE100.pk = none
      ∧ emptyAuthDB.employees.any
          (fun r => r.employee_id == newEmployeeE100.employee_id) = false)
  ∧ ((emptyAuthDB.users.any
        (fun us => us.username == newEmployeeE100.employee_id) = false →
      (Employee.save emptyAuthDB newEmployeeE100).2 = .ok ()
      ∧ (∃ us, us ∈ (Employee.save emptyAuthDB newEmployeeE100).1.users
          ∧ us.username = newEmployeeE100.employee_id
          ∧ us.groups.contains "upsight_staff" = true)
      ∧ (∃ r, r ∈ (Employee.save emptyAuthDB newEmployeeE100).1.employees
          ∧ r.employee_id = newEmployeeE100.employee_id
          ∧ r.user = some newEmployeeE100.employee_id))
    ∧ (emptyAuthDB.users.any
        (fun us => us.username == newEmployeeE100.employee_id) = true →
      (Employee.save emptyAuthDB newEmployeeE100).2 = .error .integrityError
      ∧ (∃ r, r ∈ (Employee.save emptyAuthDB newEmployeeE100).1.employees
          ∧ r.employee_id = newEmployeeE100.employee_id ∧ r.user = none))) :=
  ⟨⟨rfl, rfl⟩,
    c4_employee_principal_provisioning emptyAuthDB newEmployeeE100 rfl rfl⟩

theorem pyStartswith_makePassword (p : String) :
    pyStartswith (makePassword p) "pbkdf2_" = true := by
  show List.isPrefixOf _ _ = true
  rw [makePassword, String.data_append]
  simp [List.isPrefixOf]

theorem makePassword_ne (p : String) : makePassword p ≠ p := by
  intro h
  have hl : (makePassword p).length = p.length := by rw [h]
  rw [makePassword, String.length_append] at hl
  have h14 : ("pbkdf2_sha256$" : String).length = 14 := rfl
  rw [h14] at hl
  omega

/-- An Employee created with an empty password. -/
def emptyPwEmployee : Employee :=
  ⟨none, "E300", "Kim", "", "kim3@x.test", "", none⟩

/-- C9 counterexample: an Employee first-saved with password `""` — which
does not start with `"pbkdf2_"` — is persisted with the password stored
verbatim, not replaced by its hash (`save` only hashes a truthy password:
`if self.password and not ...`). -/
theorem c9_empty_password_stored_verbatim :
    ((Employee.save emptyAuthDB emptyPwEmployee).1.employees.map
        (fun r => r.password)) = [""]
  ∧ pyStartswith "" "pbkdf2_" = false
  ∧ makePassword "" ≠ "" := by
  refine ⟨rfl, rfl, by decide⟩

/-- C9 (amended): on the first save of an Employee or UniversityManager
whose password is non-empty and does not already start with `"pbkdf2_"`, the
stored password is the hash (tagged `pbkdf2_...`, distinct from the
plaintext) — so a non-empty plaintext password supplied at creation is never
persisted; on a subsequent save the password field is stored as it stands,
never re-hashed. -/
theorem c9_password_hashing :
    (∀ (db : AuthDB) (e : Employee), e.pk = none → e.password ≠ "" →
      pyStartswith e.password "pbkdf2_" = false →
      db.employees.any (fun r => r.employee_id == e.employee_id) = false →
      ∃ r, r ∈ (Employee.save db e).1.employees
        ∧ r.pk = some db.nextPk
        ∧ r.password = makePassword e.password
        ∧ pyStartswith r.password "pbkdf2_" = true
        ∧ r.password ≠ e.password)
  ∧ (∀ (db : AuthDB) (e : Employee) (k : Nat), e.pk = some k →
      ∀ r, r ∈ (Employee.save db e).1.employees →
        r.password = e.password ∨ r ∈ db.employees)
  ∧ (∀ (db : AuthDB) (m : UManager), m.pk = none → m.password ≠ "" →
      pyStartswith m.password "pbkdf2_" = false →
      db.umanagers.any (fun r => r.manager_id == m.manager_id) = false →
      ∃ r, r ∈ (UManager.save db m).1.umanagers
        ∧ r.pk = some db.nextPk
        ∧ r.password = makePassword m.password
        ∧ pyStartswith r.password "pbkdf2_" = true
        ∧ r.password ≠ m.password)
  ∧ (∀ (db : AuthDB) (m : UManager) (k : Nat), m.pk = some k →
      ∀ r, r ∈ (UManager.save db m).1.umanagers →
        r.password = m.password ∨ r ∈ db.umanagers) := by
  have hash_eq : ∀ p : String, p ≠ "" → pyStartswith p "pbkdf2_" = false →
      hashOnCreate p = makePassword p := by
    intro p h2 h3
    have hb : (p != "") = true := by
      simpa [bne_iff_ne] using h2
    rw [hashOnCreate, hb, h3]
    simp
  refine ⟨?_, ?_, ?_, ?_⟩
  · intro db e h1 h2 h3 h4
    have hpw := hash_eq e.password h2 h3
    rw [Employee.save, h1]
    simp only [h4, Bool.false_eq_true, if_false]
    by_cases hcl : (db.users.any (fun us => us.username == e.employee_id)) = true
    · simp only [hcl, if_true]
      refine ⟨{ e with
          pk := some db.nextPk
          password := hashOnCreate e.password
          user := none }, ?_, rfl, hpw, ?_, ?_⟩
      · exact List.mem_append_right _ (List.mem_singleton.mpr rfl)
      · show pyStartswith (hashOnCreate e.password) "pbkdf2_" = true
        rw [hpw]
        exact pyStartswith_makePassword _
      · show hashOnCreate e.password ≠ e.password
        rw [hpw]
        exact makePassword_ne _
    · simp only [hcl, if_false]
      refine ⟨{ e with
          pk := some db.nextPk
          password := hashOnCreate e.password
          user := some e.employee_id }, ?_, rfl, hpw, ?_, ?_⟩
      · refine List.mem_map.mpr ⟨{ e with
          pk := some db.nextPk
          password := hashOnCreate e.password
          user := none }, ?_, ?_⟩
        · exact List.mem_append_right _ (List.mem_singleton.mpr rfl)
        · simp
      · show pyStartswith (hashOnCreate e.password) "pbkdf2_" = true
        rw [hpw]
        exact pyStartswith_makePassword _
      · show hashOnCreate e.password ≠ e.password
        rw [hpw]
        exact makePassword_ne _
  · intro db e k h1 r hr
    rw [Employee.save, h1] at hr
    simp only at hr
    rcases List.mem_map.mp hr with ⟨x, hx, hmap⟩
    by_cases hk : (x.pk == some k) = true
    · rw [if_pos hk] at hmap
      exact Or.inl (by rw [← hmap])
    · rw [if_neg (by simpa using hk)] at hmap
      exact Or.inr (hmap ▸ hx)
  · intro db m h1 h2 h3 h4
    have hpw := hash_eq m.password h2 h3
    rw [UManager.save, h1]
    simp only [h4, Bool.false_eq_true, if_false]
    by_cases hcl : (db.users.any (fun us => us.username == toString m.manager_id)) = true
    · simp only [hcl, if_true]
      refine ⟨{ m with
          pk := some db.nextPk
          password := hashOnCreate m.password
          user := none }, ?_, rfl, hpw, ?_, ?_⟩
      · exact List.mem_append_right _ (List.mem_singleton.mpr rfl)
      · show pyStartswith (hashOnCreate m.password) "pbkdf2_" = true
        rw [hpw]
        exact pyStartswith_makePassword _
      · show hashOnCreate m.password ≠ m.password
        rw [hpw]
        exact makePassword_ne _
    · simp only [hcl, if_false]
      refine ⟨{ m with
          pk := some db.nextPk
          password := hashOnCreate m.password
          user := some (toString m.manager_id) }, ?_, rfl, hpw, ?_, ?_⟩
      · refine List.mem_map.mpr ⟨{ m with
          pk := some db.nextPk
          password := hashOnCreate m.password
          user := none }, ?_, ?_⟩
        · exact List.mem_append_right _ (List.mem_singleton.mpr rfl)
        · simp
      · show pyStartswith (hashOnCreate m.password) "pbkdf2_" = true
        rw [hpw]
        exact pyStartswith_makePassword _
      · show hashOnCreate m.password ≠ m.password
        rw [hpw]
        exact makePassword_ne _
  · intro db m k h1 r hr
    rw [UManager.save, h1] at hr
    simp only at hr
    rcases List.mem_map.mp hr with ⟨x, hx, hmap⟩
    by_cases hk : (x.pk == some k) = true
    · rw [if_pos hk] at hmap
      exact Or.inl (by rw [← hmap])
    · rw [if_neg (by simpa using hk)] at hmap
      exact Or.inr (hmap ▸ hx)

/-- A fresh Employee with a plaintext password, for the hashing witness. -/
def plaintextEmployee : Employee :=
  ⟨none, "E400", "Kim", "", "kim4@x.test", "secret", none⟩

/-- Witness for `c9_password_hashing` (first clause) on an empty store. -/
theorem c9_password_hashing_witness :
    (plaintextEmployee.pk = none
      ∧ plaintextEmployee.password ≠ ""
      ∧ pyStartswith plaintextEmployee.password "pbkdf2_" = false
      ∧ emptyAuthDB.employees.any
          (fun r => r.employee_id == plaintextEmployee.employee_id) = false)
  ∧ (∃ r, r ∈ (Employee.save emptyAuthDB plaintextEmployee).1.employees
      ∧ r.pk = some emptyAuthDB.nextPk
      ∧ r.password = makePassword plaintextEmployee.password
      ∧ pyStartswith r.password "pbkdf2_" = true
      ∧ r.password ≠ plaintextEmployee.password) :=
  ⟨⟨rfl, by decide, rfl, rfl⟩,
    c9_password_hashing.1 emptyAuthDB plaintextEmployee rfl (by decide) rfl rfl⟩

/-! ## C5 / C6: board write endpoints and bilingual write validation

A request value for one form key is absent, an explicit null, or a string
(`process_form_data` turns a blank string into `None`, i.e. null).  DRF runs
the per-field checks first and the serializer's `validate` only when they
pass. -/

/-- One form value as seen by the serializer. -/
inductive FormVal where
  | absent
  | null
  | str (s : String)
deriving DecidableEq

/-- Python truthiness of `data.get(key)`: absent and null are falsy, a
string iff non-empty. -/
def FormVal.truthy : FormVal → Bool
  | .str s => s != ""
  | _ => false

/-- Embedding of `data.get(key) and len(data[key].strip()) < n` (the second conjunct,
evaluated only on a string). -/
def FormVal.stripLenLt (v : FormVal) (n : Nat) : Bool :=
  match v with
  | .str s => decide (s.trim.length < n)
  | _ => false

/-- Embedding of `board.views.process_form_data` on one text value: strip whitespace and
turn an (effectively) empty string into `None`. -/
def processField : FormVal → FormVal
  | .str s => if s.trim = "" then .null else .str s.trim
  | v => v

/-- The payload of the board create/update serializers (News and Notice
share it: four text fields plus the owning-university pk). -/
structure ContentForm where
  title_uz : FormVal
  title_ko : FormVal
  content_uz : FormVal
  content_ko : FormVal
  university : Option Nat
deriving DecidableEq

/-- Embedding of `process_form_data` over the whole form (only string values are
transformed). -/
def processContentForm (d : ContentForm) : ContentForm :=
  { d with
    title_uz := processField d.title_uz
    title_ko := processField d.title_ko
    content_uz := processField d.content_uz
    content_ko := processField d.content_ko }

/-- DRF field-level validation of one `CharField(required=False,
allow_blank=True)` (no `allow_null`): an explicit null is rejected. -/
def charFieldErrors (name : String) : FormVal → List (String × String)
  | .null => [(name, "This field may not be null.")]
  | _ => []

/-- DRF field-level validation of the form: the four optional text fields
plus the `university` relation (required unless the update is partial, and
its pk must exist). -/
def fieldErrors (universities : List Nat) (d : ContentForm) (isPatch : Bool) :
    List (String × String) :=
  charFieldErrors "title_uz" d.title_uz
    ++ charFieldErrors "title_ko" d.title_ko
    ++ charFieldErrors "content_uz" d.content_uz
    ++ charFieldErrors "content_ko" d.content_ko
    ++ (match d.university with
        | some uid =>
            if universities.contains uid then []
            else [("university", "Invalid pk")]
        | none =>
            if isPatch then [] else [("university", "This field is required.")])

/-- The error list computed by `NewsCreateUpdateSerializer.validate` /
`NoticeCreateUpdateSerializer.validate` (board/serializers.py 185-212 and
299-326 are textually identical): at least one language per pair, minimum
stripped lengths of 3 (titles) and 10 (contents). -/
def contentPairErrors (d : ContentForm) : List (String × String) :=
  (if !d.title_uz.truthy && !d.title_ko.truthy then
    [("title", "Please provide a title in at least one language (Uzbek or Korean).")]
   else [])
  ++ (if !d.content_uz.truthy && !d.content_ko.truthy then
    [("content", "Please provide content in at least one language (Uzbek or Korean).")]
   else [])
  ++ (if d.title_uz.truthy && d.title_uz.stripLenLt 3 then
    [("title_uz", "Uzbek title must be at least 3 characters long.")]
   else [])
  ++ (if d.title_ko.truthy && d.title_ko.stripLenLt 3 then
    [("title_ko", "Korean title must be at least 3 characters long.")]
   else [])
  ++ (if d.content_uz.truthy && d.content_uz.stripLenLt 10 then
    [("content_uz", "Uzbek content must be at least 10 characters long.")]
   else [])
  ++ (if d.content_ko.truthy && d.content_ko.stripLenLt 10 then
    [("content_ko", "Korean content must be at least 10 characters long.")]
   else [])

/-- The `validate` method itself: raise `ValidationError(errors)` when any
check failed, otherwise hand the data back. -/
def boardContentValidate (d : ContentForm) :
    Except (List (String × String)) ContentForm :=
  if contentPairErrors d = [] then .ok d else .error (contentPairErrors d)

/-- Apply the validated data to the stored row (`serializer.save()` on an
instance: provided fields overwrite, absent fields are kept). -/
def applyContentForm (n : BoardRow) (d : ContentForm) : BoardRow :=
  { n with
    title_uz := match d.title_uz with | .str s => s | _ => n.title_uz
    title_ko := match d.title_ko with | .str s => s | _ => n.title_ko
    content_uz := match d.content_uz with | .str s => s | _ => n.content_uz
    content_ko := match d.content_ko with | .str s => s | _ => n.content_ko
    university := d.university.getD n.university }

/-- Outcome of the notice update endpoint. -/
inductive WriteResult where
  | forbidden
  | notFound
  | badRequest (errs : List (String × String))
  | okUpdated (row : BoardRow)
deriving DecidableEq

/-- Embedding of `board.views.notice_update` (lines 506-587): staff gate; lookup (404 on
`DoesNotExist`); cross-scope gate for `university_staff` (403, nothing
written); for scoped staff the owning university is forced back to the
notice's own; field checks, `validate`, then save. -/
def noticeUpdate (db : DB) (u : Principal) (nid : Nat) (form : ContentForm)
    (isPatch : Bool) : WriteResult × DB :=
  if ¬(hasGroup u.groups "upsight_staff" ∨ hasGroup u.groups "university_staff") then
    (.forbidden, db)
  else
    match db.notices.find? (fun m => m.id == nid) with
    | none => (.notFound, db)
    | some n =>
        if hasGroup u.groups "university_staff"
            && (getUserUniversity db.managers u != some n.university) then
          (.forbidden, db)
        else
          let data := processContentForm form
          let data := if hasGroup u.groups "university_staff"
            then { data with university := some n.university } else data
          let ferrs := fieldErrors db.universities data isPatch
          if ferrs ≠ [] then
            (.badRequest ferrs, db)
          else
            match boardContentValidate data with
            | .error errs => (.badRequest errs, db)
            | .ok vdata =>
                let updated := applyContentForm n vdata
                let written := db.notices.map
                  (fun m => if m.id == n.id then updated else m)
                (.okUpdated updated, { db with notices := written })

/-- Outcome of a detail endpoint. -/
inductive ReadResult (α : Type) where
  | forbidden
  | notFound
  | ok (x : α)
deriving DecidableEq

/-- Embedding of `board.views.notice_detail` (lines 399-431): staff gate, lookup (404),
cross-scope gate (403), else the serialized row. -/
def noticeDetail (db : DB) (u : Principal) (nid : Nat) : ReadResult BoardRow :=
  if ¬(hasGroup u.groups "upsight_staff" ∨ hasGroup u.groups "university_staff") then
    .forbidden
  else
    match db.notices.find? (fun m => m.id == nid) with
    | none => .notFound
    | some n =>
        if hasGroup u.groups "university_staff"
            && (getUserUniversity db.managers u != some n.university) then
          .forbidden
        else
          .ok n

/-- Outcome of the delete endpoint. -/
inductive DeleteResult where
  | forbidden
  | notFound
  | deleted
deriving DecidableEq

/-- Embedding of `board.views.notice_delete` (lines 592-628): staff gate, lookup (404 via
the `Notice.DoesNotExist` handler), cross-scope gate (403, row kept), else
the row is removed. -/
def noticeDelete (db : DB) (u : Principal) (nid : Nat) : DeleteResult × DB :=
  if ¬(hasGroup u.groups "upsight_staff" ∨ hasGroup u.groups "university_staff") then
    (.forbidden, db)
  else
    match db.notices.find? (fun m => m.id == nid) with
    | none => (.notFound, db)
    | some n =>
        if hasGroup u.groups "university_staff"
            && (getUserUniversity db.managers u != some n.university) then
          (.forbidden, db)
        else
          let kept := db.notices.filter (fun m => !(m.id == n.id))
          (.deleted, { db with notices := kept })

/-- C5: a scoped-staff principal bound to university `X` acting on a notice
owned by a different university gets `PermissionDenied` (403) — not 404 —
from update, get and delete, with the store untouched; and when the notice
does not exist, `NotFound` (404) takes precedence for any staff principal. -/
theorem c5_cross_scope_denied_notfound_precedes :
    (∀ (db : DB) (u : Principal) (nid : Nat) (form : ContentForm)
        (isPatch : Bool) (n : BoardRow) (X : Nat),
      hasGroup u.groups "university_staff" = true →
      getUserUniversity db.managers u = some X →
      db.notices.find? (fun m => m.id == nid) = some n →
      n.university ≠ X →
      noticeUpdate db u nid form isPatch = (.forbidden, db))
  ∧ (∀ (db : DB) (u : Principal) (nid : Nat) (form : ContentForm)
        (isPatch : Bool),
      (hasGroup u.groups "upsight_staff" = true
        ∨ hasGroup u.groups "university_staff" = true) →
      db.notices.find? (fun m => m.id == nid) = none →
      noticeUpdate db u nid form isPatch = (.notFound, db))
  ∧ (∀ (db : DB) (u : Principal) (nid : Nat) (n : BoardRow) (X : Nat),
      hasGroup u.groups "university_staff" = true →
      getUserUniversity db.managers u = some X →
      db.notices.find? (fun m => m.id == nid) = some n →
      n.university ≠ X →
      noticeDetail db u nid = .forbidden)
  ∧ (∀ (db : DB) (u : Principal) (nid : Nat),
      (hasGroup u.groups "upsight_staff" = true
        ∨ hasGroup u.groups "university_staff" = true) →
      db.notices.find? (fun m => m.id == nid) = none →
      noticeDetail db u nid = .notFound)
  ∧ (∀ (db : DB) (u : Principal) (nid : Nat) (n : BoardRow) (X : Nat),
      hasGroup u.groups "university_staff" = true →
      getUserUniversity db.managers u = some X →
      db.notices.find? (fun m => m.id == nid) = some n →
      n.university ≠ X →
      noticeDelete db u nid = (.forbidden, db))
  ∧ (∀ (db : DB) (u : Principal) (nid : Nat),
      (hasGroup u.groups "upsight_staff" = true
        ∨ hasGroup u.groups "university_staff" = true) →
      db.notices.find? (fun m => m.id == nid) = none →
      noticeDelete db u nid = (.notFound, db)) := by
  have hbne : ∀ (X y : Nat), y ≠ X → ((some X : Option Nat) != some y) = true := by
    intro X y hne
    rw [bne_iff_ne]
    intro h
    exact hne (by injection h with h2; exact h2.symm)
  refine ⟨?_, ?_, ?_, ?_, ?_, ?_⟩
  · intro db u nid form isPatch n X hs hb hfound hne
    simp [noticeUpdate, hs, hb, hfound, hbne X n.university hne]
  · intro db u nid form isPatch hstaff hfound
    rcases hstaff with h | h <;> simp [noticeUpdate, h, hfound]
  · intro db u nid n X hs hb hfound hne
    simp [noticeDetail, hs, hb, hfound, hbne X n.university hne]
  · intro db u nid hstaff hfound
    rcases hstaff with h | h <;> simp [noticeDetail, h, hfound]
  · intro db u nid n X hs hb hfound hne
    simp [noticeDelete, hs, hb, hfound, hbne X n.university hne]
  · intro db u nid hstaff hfound
    rcases hstaff with h | h <;> simp [noticeDelete, h, hfound]

/-- A notice owned by university 2, while the scoped principal of
`dbTwoUniversities` is bound to university 1. -/
def crossScopeForm : ContentForm :=
  ⟨.str "New title", .absent, .str "New content body", .absent, none⟩

/-- Witness for `c5_cross_scope_denied_notfound_precedes` on
`dbTwoUniversities` (its notice with id 3 is owned by university 2; the
scoped principal is bound to university 1; id 99 does not exist). -/
theorem c5_cross_scope_witness :
    (hasGroup scopedStaff.groups "university_staff" = true
      ∧ getUserUniversity dbTwoUniversities.managers scopedStaff = some 1
      ∧ dbTwoUniversities.notices.find? (fun m => m.id == 3)
          = some ⟨3, "i", "j", "k", "l", 2, 5⟩
      ∧ (2 : Nat) ≠ 1
      ∧ dbTwoUniversities.notices.find? (fun m => m.id == 99) = none)
  ∧ noticeUpdate dbTwoUniversities scopedStaff 3 crossScopeForm true
      = (.forbidden, dbTwoUniversities)
  ∧ noticeUpdate dbTwoUniversities scopedStaff 99 crossScopeForm true
      = (.notFound, dbTwoUniversities)
  ∧ noticeDetail dbTwoUniversities scopedStaff 3 = .forbidden
  ∧ noticeDelete dbTwoUniversities scopedStaff 3
      = (.forbidden, dbTwoUniversities) :=
  ⟨⟨rfl, rfl, rfl, by decide, rfl⟩,
    c5_cross_scope_denied_notfound_precedes.1 dbTwoUniversities scopedStaff 3
      crossScopeForm true ⟨3, "i", "j", "k", "l", 2, 5⟩ 1 rfl rfl rfl (by decide),
    (c5_cross_scope_denied_notfound_precedes.2.1 dbTwoUniversities scopedStaff 99
      crossScopeForm true (Or.inr rfl) rfl),
    (c5_cross_scope_denied_notfound_precedes.2.2.1 dbTwoUniversities scopedStaff 3
      ⟨3, "i", "j", "k", "l", 2, 5⟩ 1 rfl rfl rfl (by decide)),
    (c5_cross_scope_denied_notfound_precedes.2.2.2.2.1 dbTwoUniversities
      scopedStaff 3 ⟨3, "i", "j", "k", "l", 2, 5⟩ 1 rfl rfl rfl (by decide))⟩

/-- The creation payload for a `main.News` item: the bilingual title pair
and the required image. -/
structure MainNewsForm where
  title_uz : FormVal
  title_ko : FormVal
  image : Option String
deriving DecidableEq

/-- Write validation for `main.models.News` creation (main/models.py lines
12-21): `title_uz`/`title_ko` (and the content pair) are declared
`null=True, blank=True` and the vertical attaches no validator, so no
at-least-one-side rule exists there — only the `image` field is required.
(The `main` API is read-only; creation happens through the admin form
generated from these declarations.) -/
def mainNewsCreateValidate (f : MainNewsForm) :
    Except (List (String × String)) MainNewsForm :=
  if f.image = none then .error [("image", "This field is required.")] else .ok f

/-- C6 counterexample: `main.News` is an entity with a bilingual title pair,
yet creating one with both sides of the pair empty succeeds — the
at-least-one-side `ValidationError` is not applied uniformly across all
entities. -/
theorem c6_main_news_both_empty_accepted :
    mainNewsCreateValidate ⟨.null, .null, some "img.png"⟩
        = .ok ⟨.null, .null, some "img.png"⟩
      ∧ FormVal.truthy .null = false := by
  refine ⟨rfl, rfl⟩

/-- C6 (amended): the both-sides-empty rule with an error naming the pair is
enforced by the board create/update serializers (title and content pairs,
News and Notice alike); it is not uniform across the repository — the
`main` vertical's News applies no such rule (both sides empty passes
validation whenever an image is supplied). -/
theorem c6_pair_rule_board_only :
    (∀ d : ContentForm, d.title_uz.truthy = false → d.title_ko.truthy = false →
      ∃ errs, boardContentValidate d = .error errs
        ∧ ("title",
            "Please provide a title in at least one language (Uzbek or Korean).")
          ∈ errs)
  ∧ (∀ d : ContentForm, d.content_uz.truthy = false →
      d.content_ko.truthy = false →
      ∃ errs, boardContentValidate d = .error errs
        ∧ ("content",
            "Please provide content in at least one language (Uzbek or Korean).")
          ∈ errs)
  ∧ (∀ f : MainNewsForm, f.image ≠ none →
      mainNewsCreateValidate f = .ok f) := by
  refine ⟨?_, ?_, ?_⟩
  · intro d h1 h2
    have hmem : ("title",
        "Please provide a title in at least one language (Uzbek or Korean).")
        ∈ contentPairErrors d := by
      rw [contentPairErrors]
      simp [h1, h2]
    have hne : contentPairErrors d ≠ [] := by
      intro h
      rw [h] at hmem
      exact absurd hmem (List.not_mem_nil _)
    exact ⟨contentPairErrors d, by rw [boardContentValidate, if_neg hne], hmem⟩
  · intro d h1 h2
    have hmem : ("content",
        "Please provide content in at least one language (Uzbek or Korean).")
        ∈ contentPairErrors d := by
      rw [contentPairErrors]
      simp [h1, h2]
    have hne : contentPairErrors d ≠ [] := by
      intro h
      rw [h] at hmem
      exact absurd hmem (List.not_mem_nil _)
    exact ⟨contentPairErrors d, by rw [boardContentValidate, if_neg hne], hmem⟩
  · intro f hf
    rw [mainNewsCreateValidate, if_neg hf]

/-- Witness for `c6_pair_rule_board_only` at a concrete form with both
title sides and both content sides empty (board rejects it naming the
pairs; main accepts the analogous item). -/
theorem c6_pair_rule_board_only_witness :
    ((FormVal.truthy .null = false ∧ FormVal.truthy .absent = false)
      ∧ (some "img.png" : Option String) ≠ none)
  ∧ (∃ errs, boardContentValidate ⟨.null, .absent, .str "long enough body", .absent, some 1⟩
        = .error errs
      ∧ ("title",
          "Please provide a title in at least one language (Uzbek or Korean).")
        ∈ errs)
  ∧ (∃ errs, boardContentValidate ⟨.str "A title", .absent, .null, .absent, some 1⟩
        = .error errs
      ∧ ("content",
          "Please provide content in at least one language (Uzbek or Korean).")
        ∈ errs)
  ∧ mainNewsCreateValidate ⟨.null, .null, some "img.png"⟩
      = .ok ⟨.null, .null, some "img.png"⟩ :=
  ⟨⟨⟨rfl, rfl⟩, by decide⟩,
    c6_pair_rule_board_only.1 ⟨.null, .absent, .str "long enough body", .absent, some 1⟩
      rfl rfl,
    c6_pair_rule_board_only.2.1 ⟨.str "A title", .absent, .null, .absent, some 1⟩
      rfl rfl,
    c6_pair_rule_board_only.2.2 ⟨.null, .null, some "img.png"⟩ (by decide)⟩

/-! ## C8 / C10: timetable duration and timetable write validation -/

/-- A `datetime.time` value (hour, minute), as stored in
`ClassTimeTable.start_time` / `end_time`. -/
structure TimeOfDay where
  hour : Nat
  minute : Nat
deriving DecidableEq

/-- Minutes since midnight; Python compares `time` values chronologically,
which for (hour, minute) is comparison of this count. -/
def TimeOfDay.minutes (t : TimeOfDay) : Nat :=
  t.hour * 60 + t.minute

/-- Embedding of `ClassTimeTableSerializer.get_duration` (management/serializers.py lines
255-264).  The guard `if obj.start_time and obj.end_time` is always taken:
`datetime.time` objects are unconditionally truthy and the model columns are
non-null.  Python `//` and `%` by the positive divisor 60 are euclidean
division and remainder (`Int.ediv` / `Int.emod`). -/
def get_duration (start_time end_time : TimeOfDay) : String :=
  let duration : Int :=
    ((end_time.hour : Int) * 60 + end_time.minute)
      - ((start_time.hour : Int) * 60 + start_time.minute)
  let hours := Int.ediv duration 60
  let minutes := Int.emod duration 60
  toString hours ++ "h " ++ toString minutes ++ "m"

theorem toString_intOfNat (n : Nat) : toString ((n : Int)) = toString n := rfl

/-- C8: for start and end times within one day with start ≤ end, the
serialized duration is the minute difference rendered as "h m" in natural
arithmetic; in particular 09:00 to 10:30 gives "1h 30m". -/
theorem c8_duration_formula :
    (∀ s e : TimeOfDay, s.minutes ≤ e.minutes →
      get_duration s e
        = toString ((e.minutes - s.minutes) / 60) ++ "h "
          ++ toString ((e.minutes - s.minutes) % 60) ++ "m")
  ∧ get_duration ⟨9, 0⟩ ⟨10, 30⟩ = "1h 30m" := by
  constructor
  · intro s e h
    show toString (Int.ediv _ 60) ++ "h " ++ toString (Int.emod _ 60) ++ "m" = _
    have hD : ((e.hour : Int) * 60 + e.minute)
        - ((s.hour : Int) * 60 + s.minute)
        = ((e.minutes - s.minutes : Nat) : Int) := by
      unfold TimeOfDay.minutes at h ⊢
      omega
    rw [hD]
    have hdiv : Int.ediv ((e.minutes - s.minutes : Nat) : Int) 60
        = (((e.minutes - s.minutes) / 60 : Nat) : Int) :=
      (Int.natCast_ediv _ 60).symm
    have hmod : Int.emod ((e.minutes - s.minutes : Nat) : Int) 60
        = (((e.minutes - s.minutes) % 60 : Nat) : Int) :=
      (Int.natCast_mod _ 60).symm
    rw [hdiv, hmod, toString_intOfNat, toString_intOfNat]
  · rfl

/-- Witness for `c8_duration_formula` at Scenario D's input. -/
theorem c8_duration_formula_witness :
    ((TimeOfDay.mk 9 0).minutes ≤ (TimeOfDay.mk 10 30).minutes)
  ∧ get_duration ⟨9, 0⟩ ⟨10, 30⟩
      = toString (((TimeOfDay.mk 10 30).minutes - (TimeOfDay.mk 9 0).minutes) / 60)
        ++ "h "
        ++ toString (((TimeOfDay.mk 10 30).minutes - (TimeOfDay.mk 9 0).minutes) % 60)
        ++ "m" :=
  ⟨by decide, c8_duration_formula.1 ⟨9, 0⟩ ⟨10, 30⟩ (by decide)⟩

/-- The value supplied for the `days` key: a (choice) string or a list. -/
inductive DaysVal where
  | pystr (s : String)
  | pylist (l : List String)
deriving DecidableEq

/-- The payload of `ClassTimeTableCreateUpdateSerializer`. -/
structure TimetableForm where
  class_model : Option Nat
  days : Option DaysVal
  start_time : Option TimeOfDay
  end_time : Option TimeOfDay
deriving DecidableEq

/-- The `ValidationError` cases of
`ClassTimeTableCreateUpdateSerializer.validate`, by message:
"End time must be after start time." / "Days must be a list of day values."
/ "Invalid day: {day}. ...". -/
inductive TTError where
  | endNotAfterStart
  | daysNotList
  | invalidDay (day : String)
deriving DecidableEq

/-- Embedding of `[choice[0] for choice in ClassTimeTable.WEEKDAY_CHOICES]`. -/
def weekdayKeys : List String :=
  ["monday", "tuesday", "wednesday", "thursday", "friday", "saturday", "sunday"]

/-- The `days` checks of `validate`: `days = data.get("days", [])`; reject a
non-list; reject the first day outside the seven weekday keys. -/
def validateDays (d : TimetableForm) : Except TTError TimetableForm :=
  match d.days.getD (.pylist []) with
  | .pystr _ => .error .daysNotList
  | .pylist l =>
      match l.find? (fun day => !(weekdayKeys.contains day)) with
      | some day => .error (.invalidDay day)
      | none => .ok d

/-- Embedding of `ClassTimeTableCreateUpdateSerializer.validate`
(management/serializers.py lines 363-382): when both times are supplied
(`datetime.time` is always truthy), `start_time >= end_time` is rejected
first; then the `days` checks run; on success the data is returned
unchanged. -/
def classTimeTableValidate (d : TimetableForm) : Except TTError TimetableForm :=
  match d.start_time, d.end_time with
  | some s, some e =>
      if e.minutes ≤ s.minutes then .error .endNotAfterStart else validateDays d
  | _, _ => validateDays d

/-- C10: `validate` succeeds exactly when (a) whenever both times are
supplied the start is strictly before the end, and (b) any supplied `days`
value is a list all of whose entries are among the seven weekday choices;
otherwise it fails with a `ValidationError`. -/
theorem c10_timetable_validate (d : TimetableForm) :
    classTimeTableValidate d = .ok d
      ↔ ((∀ s e, d.start_time = some s → d.end_time = some e →
            s.minutes < e.minutes)
        ∧ (∀ dv, d.days = some dv →
            ∃ l, dv = .pylist l ∧ ∀ x ∈ l, x ∈ weekdayKeys)) := by
  have hdays : validateDays d = .ok d
      ↔ (∀ dv, d.days = some dv →
          ∃ l, dv = .pylist l ∧ ∀ x ∈ l, x ∈ weekdayKeys) := by
    constructor
    · intro h dv hdv
      cases dv with
      | pystr s => simp [validateDays, hdv] at h
      | pylist l =>
          refine ⟨l, rfl, ?_⟩
          intro x hx
          rcases hfind : l.find? (fun day => !(weekdayKeys.contains day)) with _ | day
          · have hcontra := List.find?_eq_none.mp hfind x hx
            simpa [List.contains] using hcontra
          · simp only [validateDays, hdv, Option.getD_some] at h
            rw [hfind] at h
            exact Except.noConfusion h
    · intro h
      rcases hdv : d.days with _ | dv
      · simp [validateDays, hdv]
      · rcases h dv hdv with ⟨l, rfl, hall⟩
        have hfind : l.find? (fun day => !(weekdayKeys.contains day)) = none := by
          refine List.find?_eq_none.mpr ?_
          intro x hx
          simp [List.contains, hall x hx]
        simp only [validateDays, hdv, Option.getD_some, hfind]
  rcases hs : d.start_time with _ | s <;> rcases he : d.end_time with _ | e
  · simp only [classTimeTableValidate, hs, he]
    rw [hdays]
    constructor
    · intro h
      exact ⟨fun s' e' hs' _ => Option.noConfusion hs', h⟩
    · intro h
      exact h.2
  · simp only [classTimeTableValidate, hs, he]
    rw [hdays]
    constructor
    · intro h
      exact ⟨fun s' e' hs' _ => Option.noConfusion hs', h⟩
    · intro h
      exact h.2
  · simp only [classTimeTableValidate, hs, he]
    rw [hdays]
    constructor
    · intro h
      exact ⟨fun s' e' _ he' => Option.noConfusion he', h⟩
    · intro h
      exact h.2
  · simp only [classTimeTableValidate, hs, he]
    by_cases hle : e.minutes ≤ s.minutes
    · rw [if_pos hle]
      constructor
      · intro h
        exact Except.noConfusion h
      · intro h
        have hlt := h.1 s e rfl rfl
        omega
    · rw [if_neg hle]
      rw [hdays]
      constructor
      · intro h
        refine ⟨?_, h⟩
        intro s' e' hs' he'
        injection hs' with h1
        injection he' with h2
        subst h1
        subst h2
        omega
      · intro h
        exact h.2

/-- A well-formed timetable form for the validation witness. -/
def goodTimetableForm : TimetableForm :=
  ⟨some 1, some (.pylist ["monday", "wednesday"]), some ⟨9, 0⟩, some ⟨10, 30⟩⟩

/-- Witness for `c10_timetable_validate` at a concrete form. -/
theorem c10_timetable_validate_witness :
    classTimeTableValidate goodTimetableForm = .ok goodTimetableForm
      ↔ ((∀ s e, goodTimetableForm.start_time = some s →
            goodTimetableForm.end_time = some e → s.minutes < e.minutes)
        ∧ (∀ dv, goodTimetableForm.days = some dv →
            ∃ l, dv = .pylist l ∧ ∀ x ∈ l, x ∈ weekdayKeys)) :=
  c10_timetable_validate goodTimetableForm

end Upsight
